import Mathlib

/-!
Shallow embedding of `youtubeinfoimporter.py` (class `YoutubeInfoImporter`).

Modelling conventions:
* Decoded JSON responses are typed records following the API schema the code
  reads (`pageInfo.totalResults`, `items`, `nextPageToken`, ...).  The
  `totalResults` count is a `Nat`.
* The HTTP transport is an oracle `Net` mapping a full request URL to an
  `HttpResp α`: a status code together with `Option α`, where `none` stands
  for a body that fails JSON decoding.
* Python exceptions are values of `PyError`.  All `raise ValueError(msg)`
  sites become `PyError.valueError msg` with the exact message string; index,
  key and name errors get their own constructors.
* Every operation also returns the list of request URLs it issued, in order,
  so that claims about request counts and ordering are statable.
* The pagination loop of `get_channel_videos_ids` is given explicit fuel; a
  result of `none` means the fuel ran out before the loop's own exit
  conditions fired (no claim is made about such runs).
-/

/-- Python exception values as raised by the code. -/
inductive PyError where
  | valueError (msg : String)
  | jsonDecodeError
  | indexError
  | keyError (key : String)
  | nameError (name : String)
  deriving Repr, DecidableEq

/-- The error raised by `send_request` on a non-200 status
(the spec's `ApiRequestError`). -/
def ApiRequestError (status : Nat) : PyError :=
  .valueError ("Error while requesting API, status_code: " ++ toString status ++ ".")

/-- The error raised by `get_channel_id` when `totalResults` is not positive
(the spec's `NotFoundError` for channels). -/
def NotFoundChannelError : PyError :=
  .valueError "The channel id could not be retrieved. Make sure that the channel name is correct"

/-- The error raised by `get_video_info` when `items` is empty
(the spec's `NotFoundError` for videos). -/
def NotFoundVideoError (video_id : String) : PyError :=
  .valueError ("No information found for video " ++ video_id)

/-- The error raised by `get_channel_videos_ids` on a bad `published_after`
(the spec's `InvalidDateFormatError`). -/
def InvalidDateFormatError : PyError :=
  .valueError "Incorrect data format, should be YYYY-MM-DD"

/-- `pageInfo` object of the channels/search responses. -/
structure PageInfo where
  totalResults : Nat
  deriving Repr, DecidableEq

/-- One item of the channels response (`{id: string}`). -/
structure ChannelItem where
  id : String
  deriving Repr, DecidableEq

/-- Decoded body of the channels endpoint. -/
structure ChannelListResponse where
  pageInfo : PageInfo
  items : List ChannelItem
  deriving Repr, DecidableEq

/-- `id` object of a search item (`{videoId: string}`). -/
structure SearchItemId where
  videoId : String
  deriving Repr, DecidableEq

/-- One item of the search response. -/
structure SearchItem where
  id : SearchItemId
  deriving Repr, DecidableEq

/-- Decoded body of the search endpoint; `nextPageToken = none` models the key
being absent from the JSON object. -/
structure SearchResponse where
  pageInfo : PageInfo
  items : List SearchItem
  nextPageToken : Option String
  deriving Repr, DecidableEq

/-- `snippet` object of a videos response item. -/
structure Snippet where
  title : String
  publishedAt : String
  description : String
  tags : List String
  deriving Repr, DecidableEq

/-- `contentDetails` object of a videos response item. -/
structure ContentDetails where
  duration : String
  deriving Repr, DecidableEq

/-- One item of the videos response. -/
structure VideoItem where
  snippet : Snippet
  contentDetails : ContentDetails
  deriving Repr, DecidableEq

/-- Decoded body of the videos endpoint. -/
structure VideoListResponse where
  items : List VideoItem
  deriving Repr, DecidableEq

/-- An HTTP response: transport status code plus the decoded JSON body
(`none` = body that raises on JSON decoding). -/
structure HttpResp (α : Type) where
  status_code : Nat
  body : Option α
  deriving Repr, DecidableEq

/-- The network oracle: what each endpoint returns for each full URL. -/
structure Net where
  channels : String → HttpResp ChannelListResponse
  search : String → HttpResp SearchResponse
  videos : String → HttpResp VideoListResponse

/-- Modelled from the spec: `isodate.parse_duration` is an out-of-scope
external library (spec sections 1 and 6); the structured duration value is
represented as the wrapped ISO-8601 duration string. -/
structure Duration where
  iso : String
  deriving Repr, DecidableEq

/-- Modelled from the spec: wrapper for the out-of-scope duration parser. -/
def parse_duration (s : String) : Duration := ⟨s⟩

/-- The dict built by `get_video_info`. -/
structure VideoInfo where
  title : String
  publishedAt : String
  description : String
  url : String
  tags : List String
  duration : Duration
  deriving Repr, DecidableEq

/-- The per-channel entry of `videos_dict`:
`{"channel_title": ..., "videos": {...}}`.  Python dicts are modelled as
insertion-ordered association lists. -/
structure ChannelEntry where
  channel_title : String
  videos : List (String × VideoInfo)
  deriving Repr, DecidableEq

/-- The importer state: its credential and its `videos_dict`.
(The api key is read once at construction; the derived endpoint URL fields of
`__init__` are the functions below.) -/
structure YoutubeInfoImporter where
  api_key : String
  videos_dict : List (String × ChannelEntry)
  deriving Repr, DecidableEq

/-- One step of `strReplace`, with fuel bounded by the input length so that
the recursion is structural (and hence reduces inside the kernel). -/
def replaceAux (pat rep : List Char) : Nat → List Char → List Char
  | 0, l => l
  | fuel + 1, l =>
    match l with
    | [] => []
    | c :: cs =>
      if pat ≠ [] ∧ pat.isPrefixOf (c :: cs) then
        rep ++ replaceAux pat rep fuel ((c :: cs).drop pat.length)
      else c :: replaceAux pat rep fuel cs

/-- Python's `str.replace` (and Lean's `String.replace`): replace every
non-overlapping occurrence of `pat`, left to right.  The code only calls it
with the non-empty patterns `"<api_key>"` and `"<video_id>"`; for an empty
pattern this model returns the string unchanged. -/
def strReplace (s pat rep : String) : String :=
  ⟨replaceAux pat.data rep.data s.data.length s.data⟩

/-- Suffix test on strings by their character lists (structural, unlike
`String.endsWith`). -/
def endsWithD (s t : String) : Bool :=
  t.data.isSuffixOf s.data

/-- Split on `'-'`, like `"a-b".split('-')`: every separator starts a new
(possibly empty) segment. -/
def splitDashAux : List Char → List Char → List String
  | [], cur => [⟨cur.reverse⟩]
  | c :: cs, cur =>
    if c = '-' then ⟨cur.reverse⟩ :: splitDashAux cs []
    else splitDashAux cs (c :: cur)

/-- A string's `'-'`-separated segments. -/
def splitDash (s : String) : List String :=
  splitDashAux s.data []

/-- The value of a non-empty all-ASCII-digit character list, `none`
otherwise. -/
def decDigits (l : List Char) : Option Nat :=
  if l = [] ∨ ¬ l.all Char.isDigit then none
  else some (l.foldl (fun n c => n * 10 + (c.toNat - 48)) 0)

def YOUTUBE_API_URL : String := "https://www.googleapis.com/youtube/v3/"

def YOUTUBE_CHANNEL_API_URL : String := YOUTUBE_API_URL ++ "channels?key=<api_key>&"

def YOUTUBE_SEARCH_API_URL : String := YOUTUBE_API_URL ++ "search?key=<api_key>&"

def YOUTUBE_VIDEO_DETAILS_API_URL : String :=
  YOUTUBE_API_URL ++ "videos?key=<api_key>&part=snippet,contentDetails&"

def YOUTUBE_VIDEO_URL : String := "https://www.youtube.com/watch?v=<video_id>"

def youtube_channel_api_url (yt : YoutubeInfoImporter) : String :=
  strReplace YOUTUBE_CHANNEL_API_URL "<api_key>" yt.api_key

def youtube_search_api_url (yt : YoutubeInfoImporter) : String :=
  strReplace YOUTUBE_SEARCH_API_URL "<api_key>" yt.api_key

def youtube_video_details_api_url (yt : YoutubeInfoImporter) : String :=
  strReplace YOUTUBE_VIDEO_DETAILS_API_URL "<api_key>" yt.api_key

/-- `send_request`: decode the JSON body first, then fail on a status code
other than 200.  Generic in the decoded body type since the three endpoints
share this primitive. -/
def send_request {α : Type} (resp : HttpResp α) : Except PyError α :=
  match resp.body with
  | none => .error .jsonDecodeError
  | some j =>
    if resp.status_code ≠ 200 then .error (ApiRequestError resp.status_code)
    else .ok j

/-- `get_channel_id`: result plus the list of issued request URLs. -/
def get_channel_id (net : Net) (yt : YoutubeInfoImporter) (channel_name : String) :
    Except PyError String × List String :=
  let url := youtube_channel_api_url yt ++ "forUsername=" ++ channel_name ++ "&part=id"
  match send_request (net.channels url) with
  | .error e => (.error e, [url])
  | .ok r =>
    if r.pageInfo.totalResults > 0 then
      match r.items with
      | [] => (.error .indexError, [url])
      | item :: _ => (.ok item.id, [url])
    else
      (.error NotFoundChannelError, [url])

/-- Proleptic-Gregorian leap year rule used by `datetime`. -/
def isLeapYear (y : Nat) : Bool :=
  (y % 4 == 0 && y % 100 != 0) || y % 400 == 0

/-- Length of a month, as validated by the `datetime` constructor. -/
def daysInMonth (y m : Nat) : Nat :=
  if m = 2 then (if isLeapYear y then 29 else 28)
  else if m = 4 ∨ m = 6 ∨ m = 9 ∨ m = 11 then 30
  else 31

/-- `datetime.datetime.strptime(s, "%Y-%m-%d")`, returning the calendar date
`(year, month, day)` or `none` when a `ValueError` is raised.  `%Y` matches
exactly four (ASCII, in this model) digits, `%m` and `%d` one or two digits,
the whole string must be consumed, and the values must form a real proleptic
Gregorian date with year at least 1. -/
def strptimeYMD (s : String) : Option (Nat × Nat × Nat) :=
  match splitDash s with
  | [ys, ms, ds] =>
    if ys.data.length = 4 ∧ ms.data.length ≤ 2 ∧ ds.data.length ≤ 2 then
      match decDigits ys.data, decDigits ms.data, decDigits ds.data with
      | some y, some m, some d =>
        if 1 ≤ y ∧ 1 ≤ m ∧ m ≤ 12 ∧ 1 ≤ d ∧ d ≤ daysInMonth y m then
          some (y, m, d)
        else none
      | _, _, _ => none
    else none
  | _ => none

/-- Zero-pad to two digits. -/
def pad2 (n : Nat) : String :=
  if n < 10 then "0" ++ toString n else toString n

/-- Zero-pad to four digits. -/
def pad4 (n : Nat) : String :=
  if n < 10 then "000" ++ toString n
  else if n < 100 then "00" ++ toString n
  else if n < 1000 then "0" ++ toString n
  else toString n

/-- Modelled from the spec: the date-format/timezone conversion library
(`rfc3339`) is an out-of-scope external collaborator (spec sections 1 and 6),
"convert a calendar date to the wire format required by the API"; per the
spec it yields the RFC3339 UTC timestamp for midnight of the calendar date. -/
def rfc3339UTC (d : Nat × Nat × Nat) : String :=
  pad4 d.1 ++ "-" ++ pad2 d.2.1 ++ "-" ++ pad2 d.2.2 ++ "T00:00:00Z"

/-- The URL built by one iteration of the `get_channel_videos_ids` loop,
or `InvalidDateFormatError` when `published_after` fails to parse.
A `some ""` page token is falsy in `if next_page_token:` and is not
appended, like Python's empty string. -/
def searchUrl (yt : YoutubeInfoImporter) (channel_id : String)
    (next_page_token : Option String) (published_after : Option String) :
    Except PyError String :=
  let url := youtube_search_api_url yt ++ "channelId=" ++ channel_id ++
    "&part=id&order=date&type=video&maxResults=50"
  let url := match next_page_token with
    | none => url
    | some t => if t.isEmpty then url else url ++ "&pageToken=" ++ t
  match published_after with
  | none => .ok url
  | some pa =>
    match strptimeYMD pa with
    | none => .error InvalidDateFormatError
    | some d => .ok (url ++ "&publishedAfter=" ++ rfc3339UTC d)

/-- `math.ceil(n / 50)` on a natural count. -/
def maxIterOf (nb_videos : Nat) : Nat := (nb_videos + 49) / 50

/-- The `while True` loop of `get_channel_videos_ids`.  State: remaining fuel,
`nb_iter` so far, current `next_page_token`, accumulated `list_videos`, and
the request URLs issued so far.  Returns `none` when the fuel runs out,
otherwise the result (or raised error) together with the full URL trace. -/
def videosLoop (net : Net) (yt : YoutubeInfoImporter) (channel_id : String)
    (published_after : Option String) :
    Nat → Nat → Option String → List String → List String →
    Option (Except PyError (List String) × List String)
  | 0, _, _, _, _ => none
  | fuel + 1, nb_iter0, tok, acc, urls =>
    let nb_iter := nb_iter0 + 1
    match searchUrl yt channel_id tok published_after with
    | .error e => some (.error e, urls)
    | .ok url =>
      match send_request (net.search url) with
      | .error e => some (.error e, urls ++ [url])
      | .ok r =>
        let max_iter := maxIterOf r.pageInfo.totalResults
        let acc' := acc ++ r.items.map (fun i => i.id.videoId)
        if r.items = [] ∨ nb_iter ≥ max_iter ∨ r.nextPageToken = none then
          some (.ok acc', urls ++ [url])
        else
          videosLoop net yt channel_id published_after fuel nb_iter
            r.nextPageToken acc' (urls ++ [url])

/-- `get_channel_videos_ids`: run the loop from the initial state. -/
def get_channel_videos_ids (net : Net) (yt : YoutubeInfoImporter)
    (channel_id : String) (published_after : Option String) (fuel : Nat) :
    Option (Except PyError (List String) × List String) :=
  videosLoop net yt channel_id published_after fuel 0 none [] []

/-- `get_video_info`: fetch one video's details; the description is cut to
its first `limit_description` characters (Python `[:limit]`, modelled on the
underlying character list). -/
def get_video_info (net : Net) (yt : YoutubeInfoImporter) (video_id : String)
    (limit_description : Nat) : Except PyError VideoInfo × List String :=
  let url := youtube_video_details_api_url yt ++ "id=" ++ video_id
  match send_request (net.videos url) with
  | .error e => (.error e, [url])
  | .ok r =>
    match r.items with
    | [] => (.error (NotFoundVideoError video_id), [url])
    | item :: _ =>
      (.ok { title := item.snippet.title
             publishedAt := item.snippet.publishedAt
             description := ⟨item.snippet.description.data.take limit_description⟩
             url := strReplace YOUTUBE_VIDEO_URL "<video_id>" video_id
             tags := item.snippet.tags
             duration := parse_duration item.contentDetails.duration },
       [url])

/-- Python dict assignment `d[k] = v` on an insertion-ordered association
list: replace in place when the key exists, append otherwise. -/
def dictSet {β : Type} : List (String × β) → String → β → List (String × β)
  | [], k, v => [(k, v)]
  | (k', v') :: rest, k, v =>
    if k' = k then (k, v) :: rest else (k', v') :: dictSet rest k v

/-- `self.videos_dict[channel_id]["videos"][v_id] = info`; `none` models the
`KeyError` raised when `channel_id` is not a key. -/
def setVideo : List (String × ChannelEntry) → String → String → VideoInfo →
    Option (List (String × ChannelEntry))
  | [], _, _, _ => none
  | (k, e) :: rest, cid, v, info =>
    if k = cid then
      some ((k, { e with videos := dictSet e.videos v info }) :: rest)
    else
      (setVideo rest cid v info).map (fun l => (k, e) :: l)

/-- The `for v_id in videos:` loop of `import_videos_from_channel`: each
detail fetch goes through the global importer `g`, each store mutates the
calling instance's state `st`.  The state reached so far is kept even when an
error aborts the loop, like Python's in-place dict mutation. -/
def importLoop (net : Net) (g : YoutubeInfoImporter) (channel_id : String) :
    List String → YoutubeInfoImporter → List String →
    YoutubeInfoImporter × Except PyError Unit × List String
  | [], st, urls => (st, .ok (), urls)
  | v_id :: rest, st, urls =>
    match get_video_info net g v_id 100 with
    | (.error e, us) => (st, .error e, urls ++ us)
    | (.ok info, us) =>
      match setVideo st.videos_dict channel_id v_id info with
      | none => (st, .error (.keyError channel_id), urls ++ us)
      | some d =>
        importLoop net g channel_id rest { st with videos_dict := d } (urls ++ us)

/-- `import_videos_from_channel`.  The method resolves the channel id, lists
the videos and fetches each video's details on the module-level global `yt`
(parameter `globalYt`, `none` when the module-level name is not defined, in
which case evaluating `yt` raises a `NameError`), while `self.videos_dict`
belongs to the calling instance `self`.  `if not channel_id:` treats both
`None` and the empty string as missing.  Returns the final state of `self`,
the outcome, and the URL trace; `none` = listing fuel ran out. -/
def import_videos_from_channel (net : Net) (globalYt : Option YoutubeInfoImporter)
    (self : YoutubeInfoImporter) (channel_name : String)
    (channel_id : Option String) (published_after : Option String) (fuel : Nat) :
    Option (YoutubeInfoImporter × Except PyError Unit × List String) :=
  let step2 : String → Option (YoutubeInfoImporter × Except PyError Unit × List String) :=
    fun cid =>
      let entry0 : ChannelEntry := { channel_title := channel_name, videos := [] }
      let self1 : YoutubeInfoImporter :=
        { self with videos_dict := dictSet self.videos_dict cid entry0 }
      match globalYt with
      | none => some (self1, .error (.nameError "yt"), [])
      | some g =>
        match get_channel_videos_ids net g cid published_after fuel with
        | none => none
        | some (.error e, urls) => some (self1, .error e, urls)
        | some (.ok videos, urls) =>
          some (importLoop net g cid videos self1 urls)
  match channel_id with
  | some cid =>
    if cid.isEmpty then
      match globalYt with
      | none => some (self, .error (.nameError "yt"), [])
      | some g =>
        match get_channel_id net g channel_name with
        | (.error e, urls) => some (self, .error e, urls)
        | (.ok cid', urls) =>
          (step2 cid').map (fun r => (r.1, r.2.1, urls ++ r.2.2))
    else step2 cid
  | none =>
    match globalYt with
    | none => some (self, .error (.nameError "yt"), [])
    | some g =>
      match get_channel_id net g channel_name with
      | (.error e, urls) => some (self, .error e, urls)
      | (.ok cid', urls) =>
        (step2 cid').map (fun r => (r.1, r.2.1, urls ++ r.2.2))

/-! Concrete importer instances and network oracles used to instantiate the
theorems below on closed inputs. -/

/-- An importer with credential `"K"` and an empty catalog. -/
def myYt : YoutubeInfoImporter := ⟨"K", []⟩

/-- A second importer (the module-level global) with credential `"GK"`. -/
def gYt : YoutubeInfoImporter := ⟨"GK", []⟩

/-- A calling instance with credential `"SK"`, distinct from the global. -/
def selfYt : YoutubeInfoImporter := ⟨"SK", []⟩

/-- A network whose bodies never decode; only used where no request matters. -/
def trivNet : Net := ⟨fun _ => ⟨200, none⟩, fun _ => ⟨200, none⟩, fun _ => ⟨200, none⟩⟩

/-- The search URL of the first page (no token, no date filter). -/
def searchBase (yt : YoutubeInfoImporter) (cid : String) : String :=
  youtube_search_api_url yt ++ "channelId=" ++ cid ++
    "&part=id&order=date&type=video&maxResults=50"

/-- A 200 search page reporting `t` total results, the given video ids, and
an optional continuation token. -/
def sPage (t : Nat) (ids : List String) (tok : Option String) : HttpResp SearchResponse :=
  ⟨200, some ⟨⟨t⟩, ids.map (fun s => ⟨⟨s⟩⟩), tok⟩⟩

/-- Three search pages whose reported totals disagree: the first page reports
51 results (expected max 2 pages), later pages report 5000. -/
def net3 : Net :=
  ⟨fun _ => ⟨200, none⟩,
   fun url =>
     if endsWithD url "pageToken=t1" then sPage 5000 ["v2"] (some "t2")
     else if endsWithD url "pageToken=t2" then sPage 5000 ["v3"] none
     else sPage 51 ["v1"] (some "t1"),
   fun _ => ⟨200, none⟩⟩

/-- A search endpoint reporting `totalResults = 0` while still carrying one
item and a continuation token. -/
def net0 : Net := ⟨fun _ => ⟨200, none⟩, fun _ => sPage 0 ["v"] (some "t"), fun _ => ⟨200, none⟩⟩

/-- Two consistent search pages, both reporting 60 total results. -/
def netC1w : Net :=
  ⟨fun _ => ⟨200, none⟩,
   fun url =>
     if endsWithD url "pageToken=t1" then sPage 60 ["w2"] none
     else sPage 60 ["w1"] (some "t1"),
   fun _ => ⟨200, none⟩⟩

/-- A search endpoint for an empty channel: zero totals, no items. -/
def netC2w : Net := ⟨fun _ => ⟨200, none⟩, fun _ => sPage 0 [] none, fun _ => ⟨200, none⟩⟩

/-- A channels endpoint with exactly one matching record. -/
def netC3w : Net :=
  ⟨fun _ => ⟨200, some ⟨⟨1⟩, [⟨"UC123"⟩]⟩⟩, fun _ => ⟨200, none⟩, fun _ => ⟨200, none⟩⟩

/-- One search page with a single video and no continuation token. -/
def netC5w : Net := ⟨fun _ => ⟨200, none⟩, fun _ => sPage 1 ["vid1"] none, fun _ => ⟨200, none⟩⟩

/-- A 500-character description. -/
def desc500 : String := ⟨List.replicate 500 'x'⟩

/-- A video item carrying the 500-character description. -/
def item500 : VideoItem := ⟨⟨"Title", "2021-01-02T03:04:05Z", desc500, ["t1", "t2"]⟩, ⟨"PT5M30S"⟩⟩

/-- A videos endpoint returning `item500` for every id. -/
def netC6w : Net := ⟨fun _ => ⟨200, none⟩, fun _ => ⟨200, none⟩, fun _ => ⟨200, some ⟨[item500]⟩⟩⟩

/-- A small video item with a one-character description. -/
def smallItem : VideoItem := ⟨⟨"T", "2020-01-01T00:00:00Z", "d", ["x"]⟩, ⟨"PT1M"⟩⟩

/-- The detail record `get_video_info` builds from `smallItem` for id `v`. -/
def infoOfId (v : String) : VideoInfo :=
  ⟨"T", "2020-01-01T00:00:00Z", "d", strReplace YOUTUBE_VIDEO_URL "<video_id>" v, ["x"], ⟨"PT1M"⟩⟩

/-- Listing returns `["a", "b"]`; details succeed for every id except `b`,
whose response carries an empty `items` list. -/
def netC7w : Net :=
  ⟨fun _ => ⟨200, none⟩,
   fun _ => sPage 2 ["a", "b"] none,
   fun url => if endsWithD url "id=b" then ⟨200, some ⟨[]⟩⟩ else ⟨200, some ⟨[smallItem]⟩⟩⟩

/-- Listing returns `["a", "b"]`; all detail fetches succeed. -/
def netC9w : Net :=
  ⟨fun _ => ⟨200, none⟩, fun _ => sPage 2 ["a", "b"] none, fun _ => ⟨200, some ⟨[smallItem]⟩⟩⟩

/-- A decoded channels body (valid JSON) distinct from `bodyB`. -/
def bodyA : ChannelListResponse := ⟨⟨1⟩, [⟨"UCa"⟩]⟩

/-- A second decoded channels body (valid JSON). -/
def bodyB : ChannelListResponse := ⟨⟨2⟩, []⟩

/-! Theorems. -/

/-- C8 counterexample: two responses with the same non-success status code
but different decoded (valid-JSON) bodies produce the very same error value,
so the error raised by `send_request` cannot carry the decoded error body. -/
theorem send_request_error_body_cex :
    send_request (⟨403, some bodyA⟩ : HttpResp ChannelListResponse) =
      Except.error (ApiRequestError 403) ∧
    send_request (⟨403, some bodyB⟩ : HttpResp ChannelListResponse) =
      Except.error (ApiRequestError 403) ∧
    bodyA ≠ bodyB :=
  ⟨rfl, rfl, by decide⟩

/-- C8 (amended): for every response whose status code is not 200 the shared
request/decode primitive fails with `ApiRequestError` carrying that status
code (the decoded body is only logged, not attached to the error), and JSON
decoding is attempted before the status check: an undecodable body yields the
decode error even on a non-success status. -/
theorem send_request_non_success (α : Type) (status : Nat) (hs : status ≠ 200) :
    (∀ b : α, send_request ⟨status, some b⟩ = Except.error (ApiRequestError status)) ∧
    send_request (⟨status, none⟩ : HttpResp α) = Except.error PyError.jsonDecodeError := by
  constructor
  · intro b
    simp [send_request, hs]
  · rfl

/-- Witness for C8's amended theorem at status 500. -/
theorem send_request_non_success_witness :
    send_request (⟨500, some bodyA⟩ : HttpResp ChannelListResponse) =
      Except.error (ApiRequestError 500) ∧
    send_request (⟨500, none⟩ : HttpResp ChannelListResponse) =
      Except.error PyError.jsonDecodeError := by
  have h := send_request_non_success ChannelListResponse 500 (by decide)
  exact ⟨h.1 bodyA, h.2⟩

/-- C4: when `published_after` does not parse as `%Y-%m-%d`,
`get_channel_videos_ids` raises `InvalidDateFormatError` with an empty
request trace: the failure happens before any request referencing the value
is sent. -/
theorem get_channel_videos_ids_invalid_date (net : Net) (yt : YoutubeInfoImporter)
    (cid : String) (pa : String) (fuel : Nat) (hbad : strptimeYMD pa = none) :
    get_channel_videos_ids net yt cid (some pa) (fuel + 1) =
      some (.error InvalidDateFormatError, []) := by
  simp [get_channel_videos_ids, videosLoop, searchUrl, hbad]

/-- Witness for C4 at the invalid calendar date `"2020-13-40"`. -/
theorem get_channel_videos_ids_invalid_date_witness :
    get_channel_videos_ids trivNet myYt "c" (some "2020-13-40") 4 =
      some (.error InvalidDateFormatError, []) :=
  get_channel_videos_ids_invalid_date trivNet myYt "c" "2020-13-40" 3 (by decide)

/-- C3: on a decoded 200 lookup response, `get_channel_id` returns the first
record's identifier whenever the response reports a positive total and
carries at least one record (also when it reports several), and it fails with
the channel `NotFoundError` exactly when the reported total is zero. -/
theorem get_channel_id_spec (net : Net) (yt : YoutubeInfoImporter) (name u : String)
    (r : ChannelListResponse)
    (hu : u = youtube_channel_api_url yt ++ "forUsername=" ++ name ++ "&part=id")
    (hok : send_request (net.channels u) = .ok r) :
    (∀ item rest, r.items = item :: rest → 0 < r.pageInfo.totalResults →
        get_channel_id net yt name = (.ok item.id, [u])) ∧
    (r.pageInfo.totalResults = 0 →
        get_channel_id net yt name = (.error NotFoundChannelError, [u])) ∧
    ((get_channel_id net yt name).1 = .error NotFoundChannelError ↔
        r.pageInfo.totalResults = 0) := by
  subst hu
  refine ⟨?_, ?_, ?_, ?_⟩
  · intro item rest hitems hpos
    simp [get_channel_id, hok, hitems, hpos]
  · intro h0
    simp [get_channel_id, hok, h0]
  · intro h
    by_contra hne
    have hpos : 0 < r.pageInfo.totalResults := Nat.pos_of_ne_zero hne
    rcases hr : r.items with _ | ⟨item, rest⟩
    · simp [get_channel_id, hok, hr, hpos, NotFoundChannelError] at h
    · simp [get_channel_id, hok, hr, hpos, NotFoundChannelError] at h
  · intro h0
    simp [get_channel_id, hok, h0]

/-- Witness for C3: a lookup response with exactly one record. -/
theorem get_channel_id_spec_witness :
    get_channel_id netC3w myYt "blogilates" =
      (.ok "UC123",
       [youtube_channel_api_url myYt ++ "forUsername=" ++ "blogilates" ++ "&part=id"]) := by
  have h := get_channel_id_spec netC3w myYt "blogilates" _ ⟨⟨1⟩, [⟨"UC123"⟩]⟩ rfl rfl
  exact h.1 ⟨"UC123"⟩ [] rfl (by decide)

/-- C6: on a decoded 200 detail response with at least one item,
`get_video_info` stores the pure character-prefix of the description of
length at most `limit_description`; when the description has at least
`limit_description` characters the stored prefix has exactly that length. -/
theorem get_video_info_description_truncation (net : Net) (yt : YoutubeInfoImporter)
    (vid u : String) (limit : Nat) (r : VideoListResponse) (item : VideoItem)
    (rest : List VideoItem)
    (hu : u = youtube_video_details_api_url yt ++ "id=" ++ vid)
    (hr : send_request (net.videos u) = .ok r)
    (hitems : r.items = item :: rest) :
    get_video_info net yt vid limit =
      (.ok ⟨item.snippet.title, item.snippet.publishedAt,
            ⟨item.snippet.description.data.take limit⟩,
            strReplace YOUTUBE_VIDEO_URL "<video_id>" vid,
            item.snippet.tags, parse_duration item.contentDetails.duration⟩, [u]) ∧
    (⟨item.snippet.description.data.take limit⟩ : String).data <+:
      item.snippet.description.data ∧
    (⟨item.snippet.description.data.take limit⟩ : String).length ≤ limit ∧
    (limit ≤ item.snippet.description.length →
      (⟨item.snippet.description.data.take limit⟩ : String).length = limit) := by
  subst hu
  refine ⟨by simp [get_video_info, hr, hitems], List.take_prefix _ _, ?_, ?_⟩
  · show (item.snippet.description.data.take limit).length ≤ limit
    simp [List.length_take]
  · intro hle
    show (item.snippet.description.data.take limit).length = limit
    simp [List.length_take]
    omega

/-- Witness for C6: a 500-character description truncated to exactly 100
characters. -/
theorem get_video_info_description_truncation_witness :
    get_video_info netC6w myYt "vid" 100 =
      (.ok ⟨"Title", "2021-01-02T03:04:05Z", ⟨desc500.data.take 100⟩,
            strReplace YOUTUBE_VIDEO_URL "<video_id>" "vid", ["t1", "t2"],
            parse_duration "PT5M30S"⟩,
       [youtube_video_details_api_url myYt ++ "id=" ++ "vid"]) ∧
    (⟨desc500.data.take 100⟩ : String).length = 100 := by
  have h := get_video_info_description_truncation netC6w myYt "vid" _ 100
    ⟨[item500]⟩ item500 [] rfl rfl rfl
  exact ⟨h.1, h.2.2.2 (by set_option maxRecDepth 4000 in decide)⟩

/-- A successful `send_request` means the body decoded. -/
theorem send_request_ok_body {α : Type} (resp : HttpResp α) (j : α)
    (h : send_request resp = .ok j) : resp.body = some j := by
  rcases resp with ⟨status, body⟩
  rcases body with _ | b
  · simp [send_request] at h
  · simp only [send_request] at h
    split at h
    · simp at h
    · simpa using h

/-- The URL trace of the pagination loop only grows: whatever was issued
before the call stays a prefix of the final trace. -/
theorem videosLoop_trace_extend (net : Net) (yt : YoutubeInfoImporter) (cid : String)
    (pa : Option String) :
    ∀ (fuel n : Nat) (tok : Option String) (acc urls : List String)
      (res : Except PyError (List String)) (urls2 : List String),
      videosLoop net yt cid pa fuel n tok acc urls = some (res, urls2) →
      ∃ ext, urls2 = urls ++ ext := by
  intro fuel
  induction fuel with
  | zero =>
    intro n tok acc urls res urls2 h
    simp [videosLoop] at h
  | succ fuel ih =>
    intro n tok acc urls res urls2 h
    simp only [videosLoop] at h
    split at h
    · simp only [Option.some.injEq, Prod.mk.injEq] at h
      exact ⟨[], by simp [h.2]⟩
    · split at h
      · simp only [Option.some.injEq, Prod.mk.injEq] at h
        exact ⟨[_], h.2.symm⟩
      · split at h
        · simp only [Option.some.injEq, Prod.mk.injEq] at h
          exact ⟨[_], h.2.symm⟩
        · obtain ⟨ext, hext⟩ := ih _ _ _ _ _ _ h
          exact ⟨_ :: ext, by simpa using hext⟩

/-- When every page of the oracle reports the same total `T`, the loop never
issues more than `max 1 ⌈T / 50⌉` requests. -/
theorem videosLoop_bound (net : Net) (yt : YoutubeInfoImporter) (cid : String)
    (pa : Option String) (T : Nat)
    (hT : ∀ u r, (net.search u).body = some r → r.pageInfo.totalResults = T) :
    ∀ (fuel n : Nat) (tok : Option String) (acc urls : List String)
      (res : Except PyError (List String)) (urls2 : List String),
      urls.length = n → (n = 0 ∨ n < maxIterOf T) →
      videosLoop net yt cid pa fuel n tok acc urls = some (res, urls2) →
      urls2.length ≤ max 1 (maxIterOf T) := by
  have hmax1 : 1 ≤ max 1 (maxIterOf T) := Nat.le_max_left 1 _
  have hmax2 : maxIterOf T ≤ max 1 (maxIterOf T) := Nat.le_max_right 1 _
  intro fuel
  induction fuel with
  | zero =>
    intro n tok acc urls res urls2 _ _ h
    simp [videosLoop] at h
  | succ fuel ih =>
    intro n tok acc urls res urls2 hlen hn h
    simp only [videosLoop] at h
    split at h
    · simp only [Option.some.injEq, Prod.mk.injEq] at h
      rw [← h.2, hlen]
      omega
    · rename_i url hurl
      split at h
      · simp only [Option.some.injEq, Prod.mk.injEq] at h
        rw [← h.2]
        simp only [List.length_append, List.length_singleton, hlen]
        omega
      · rename_i r hreq
        have hbody := send_request_ok_body (net.search url) r hreq
        have hTr := hT url r hbody
        split at h
        · simp only [Option.some.injEq, Prod.mk.injEq] at h
          rw [← h.2]
          simp only [List.length_append, List.length_singleton, hlen]
          omega
        · rename_i hcond
          rw [hTr] at hcond
          have hlt : n + 1 < maxIterOf T := by omega
          exact ih (n + 1) _ _ (urls ++ [url]) res urls2
            (by simp [hlen]) (Or.inr hlt) h

/-- C1 counterexample: the loop recomputes its page bound from every page's
reported total, not just the first page's.  Against `net3`, whose first page
reports 51 results (expected max `⌈51/50⌉ = 2` pages) but whose later pages
report 5000, the run issues 3 requests — more than the first page's bound. -/
theorem get_channel_videos_ids_firstPage_bound_cex :
    get_channel_videos_ids net3 myYt "c" none 10 =
      some (.ok ["v1", "v2", "v3"],
        [searchBase myYt "c", searchBase myYt "c" ++ "&pageToken=t1",
         searchBase myYt "c" ++ "&pageToken=t2"]) ∧
    (net3.search (searchBase myYt "c")).body.map
      (fun r => maxIterOf r.pageInfo.totalResults) = some 2 ∧
    ¬ (3 : Nat) ≤ 2 :=
  ⟨rfl, rfl, by decide⟩

/-- C1 (amended): when every page of the run reports the same total `T`,
`get_channel_videos_ids` issues at most `max 1 ⌈T / 50⌉` requests (the code
recomputes the failsafe bound from each page's reported total, so pages with
inconsistent totals can exceed the first page's bound); and the loop stops
immediately, in the very iteration, whenever a page's response carries no
continuation token, regardless of how many pages the bound still allows. -/
theorem get_channel_videos_ids_request_bound (net : Net) (yt : YoutubeInfoImporter)
    (cid : String) (pa : Option String) (T : Nat)
    (hT : ∀ u r, (net.search u).body = some r → r.pageInfo.totalResults = T)
    (fuel : Nat) (res : Except PyError (List String)) (urls : List String)
    (hrun : get_channel_videos_ids net yt cid pa fuel = some (res, urls)) :
    urls.length ≤ max 1 (maxIterOf T) ∧
    (∀ (fuel2 n : Nat) (tok : Option String) (acc us : List String) (u : String)
       (r : SearchResponse),
       searchUrl yt cid tok pa = .ok u →
       send_request (net.search u) = .ok r →
       r.nextPageToken = none →
       videosLoop net yt cid pa (fuel2 + 1) n tok acc us =
         some (.ok (acc ++ r.items.map (fun i => i.id.videoId)), us ++ [u])) := by
  constructor
  · exact videosLoop_bound net yt cid pa T hT fuel 0 none [] [] res urls rfl
      (Or.inl rfl) hrun
  · intro fuel2 n tok acc us u r h1 h2 h3
    simp [videosLoop, h1, h2, h3]

/-- Witness for C1's amended theorem: two consistent pages reporting 60
total results (bound 2), and an immediate stop on the token-free page. -/
theorem get_channel_videos_ids_request_bound_witness :
    ([searchBase myYt "c", searchBase myYt "c" ++ "&pageToken=t1"] : List String).length ≤
      max 1 (maxIterOf 60) ∧
    videosLoop netC1w myYt "c" none 1 0 (some "t1") [] [] =
      some (.ok ["w2"], [searchBase myYt "c" ++ "&pageToken=t1"]) := by
  have hT : ∀ u r, (netC1w.search u).body = some r → r.pageInfo.totalResults = 60 := by
    intro u r hr
    simp only [netC1w] at hr
    split at hr <;> simp only [sPage] at hr <;> (injection hr with hr; subst hr; rfl)
  have h := get_channel_videos_ids_request_bound netC1w myYt "c" none 60 hT 5
    (.ok ["w1", "w2"]) [searchBase myYt "c", searchBase myYt "c" ++ "&pageToken=t1"] rfl
  exact ⟨h.1, h.2 0 0 (some "t1") [] [] _ ⟨⟨60⟩, [⟨⟨"w2"⟩⟩], none⟩ rfl rfl rfl⟩

/-- C2 counterexample: against `net0`, whose single page reports
`totalResults = 0` but still carries one item, the run returns that item's
id after one request instead of an empty sequence. -/
theorem get_channel_videos_ids_zero_total_cex :
    get_channel_videos_ids net0 myYt "c" none 10 =
      some (.ok ["v"], [searchBase myYt "c"]) ∧
    (net0.search (searchBase myYt "c")).body.map (fun r => r.pageInfo.totalResults) =
      some 0 ∧
    (["v"] : List String) ≠ [] :=
  ⟨rfl, rfl, by decide⟩

/-- C2 (amended): when the listing response reports `totalResults = 0` and
carries an empty items list, `get_channel_videos_ids` returns the empty
sequence as a non-error result after issuing exactly one request. -/
theorem get_channel_videos_ids_zero_total (net : Net) (yt : YoutubeInfoImporter)
    (cid : String) (pa : Option String) (u : String) (r : SearchResponse)
    (hu : searchUrl yt cid none pa = .ok u)
    (hr : send_request (net.search u) = .ok r)
    (h0 : r.pageInfo.totalResults = 0)
    (hitems : r.items = [])
    (fuel : Nat) :
    get_channel_videos_ids net yt cid pa (fuel + 1) = some (.ok [], [u]) := by
  simp [get_channel_videos_ids, videosLoop, hu, hr, hitems]

/-- Witness for C2's amended theorem: an empty channel. -/
theorem get_channel_videos_ids_zero_total_witness :
    get_channel_videos_ids netC2w myYt "c" none 3 =
      some (.ok [], [searchBase myYt "c"]) :=
  get_channel_videos_ids_zero_total netC2w myYt "c" none _ ⟨⟨0⟩, [], none⟩
    rfl rfl rfl rfl 2

/-- C5: with `published_after = "2020-12-01"`, the first outgoing search
request's URL carries `publishedAfter=2020-12-01T00:00:00Z`, the RFC3339 UTC
timestamp of midnight of that calendar date. -/
theorem get_channel_videos_ids_published_after_rfc3339 (net : Net)
    (yt : YoutubeInfoImporter) (cid : String) (fuel : Nat)
    (res : Except PyError (List String)) (urls : List String)
    (hrun : get_channel_videos_ids net yt cid (some "2020-12-01") fuel =
      some (res, urls)) :
    searchUrl yt cid none (some "2020-12-01") =
      .ok (searchBase yt cid ++ "&publishedAfter=" ++ "2020-12-01T00:00:00Z") ∧
    urls.head? =
      some (searchBase yt cid ++ "&publishedAfter=" ++ "2020-12-01T00:00:00Z") := by
  have hd : strptimeYMD "2020-12-01" = some (2020, 12, 1) := by decide
  have hts : rfc3339UTC (2020, 12, 1) = "2020-12-01T00:00:00Z" := by decide
  have hu : searchUrl yt cid none (some "2020-12-01") =
      .ok (searchBase yt cid ++ "&publishedAfter=" ++ "2020-12-01T00:00:00Z") := by
    simp [searchUrl, searchBase, hd, hts]
  refine ⟨hu, ?_⟩
  cases fuel with
  | zero => simp [get_channel_videos_ids, videosLoop] at hrun
  | succ fuel =>
    simp only [get_channel_videos_ids, videosLoop, hu] at hrun
    split at hrun
    · simp only [Option.some.injEq, Prod.mk.injEq] at hrun
      rw [← hrun.2]
      rfl
    · split at hrun
      · simp only [Option.some.injEq, Prod.mk.injEq] at hrun
        rw [← hrun.2]
        rfl
      · obtain ⟨ext, hext⟩ :=
          videosLoop_trace_extend net yt cid (some "2020-12-01") _ _ _ _ _ _ _ hrun
        rw [hext]
        rfl

/-- Witness for C5: a one-page run filtered to dates after 2020-12-01. -/
theorem get_channel_videos_ids_published_after_rfc3339_witness :
    searchUrl myYt "c" none (some "2020-12-01") =
      .ok (searchBase myYt "c" ++ "&publishedAfter=" ++ "2020-12-01T00:00:00Z") ∧
    ([searchBase myYt "c" ++ "&publishedAfter=" ++ "2020-12-01T00:00:00Z"] :
        List String).head? =
      some (searchBase myYt "c" ++ "&publishedAfter=" ++ "2020-12-01T00:00:00Z") :=
  get_channel_videos_ids_published_after_rfc3339 netC5w myYt "c" 1 (.ok ["vid1"])
    [searchBase myYt "c" ++ "&publishedAfter=" ++ "2020-12-01T00:00:00Z"] rfl

/-- `get_video_info` always issues exactly the one details request. -/
theorem get_video_info_trace (net : Net) (yt : YoutubeInfoImporter) (vid : String)
    (limit : Nat) :
    (get_video_info net yt vid limit).2 =
      [youtube_video_details_api_url yt ++ "id=" ++ vid] := by
  simp only [get_video_info]
  split
  · rfl
  · split <;> rfl

/-- Writing a video under a key that was just written collapses into one
update of that key's entry. -/
theorem setVideo_dictSet (D : List (String × ChannelEntry)) (cid v : String)
    (e : ChannelEntry) (info : VideoInfo) :
    setVideo (dictSet D cid e) cid v info =
      some (dictSet D cid { e with videos := dictSet e.videos v info }) := by
  induction D with
  | nil => simp [dictSet, setVideo]
  | cons p rest ih =>
    rcases p with ⟨k, e2⟩
    by_cases hk : k = cid
    · simp [dictSet, setVideo, hk]
    · simp [dictSet, setVideo, hk, ih]

/-- `dict[k] = v` on a dict without key `k` appends the binding. -/
theorem dictSet_not_key {β : Type} (l : List (String × β)) (k : String) (v : β)
    (hk : k ∉ l.map Prod.fst) : dictSet l k v = l ++ [(k, v)] := by
  induction l with
  | nil => rfl
  | cons p rest ih =>
    rcases p with ⟨k2, v2⟩
    simp only [List.map_cons, List.mem_cons] at hk
    push_neg at hk
    simp only [dictSet]
    rw [if_neg (fun hh => hk.1 hh.symm), ih hk.2]
    rfl

/-- Storing pairwise-distinct fresh keys one by one appends them in order. -/
theorem foldl_dictSet_map (infoF : String → VideoInfo) :
    ∀ (ids : List String) (done : List (String × VideoInfo)),
      (∀ v ∈ ids, v ∉ done.map Prod.fst) → ids.Nodup →
      ids.foldl (fun d v => dictSet d v (infoF v)) done =
        done ++ ids.map (fun v => (v, infoF v)) := by
  intro ids
  induction ids with
  | nil =>
    intro done _ _
    simp
  | cons v vs ih =>
    intro done hdis hnd
    simp only [List.foldl_cons]
    rw [dictSet_not_key done v (infoF v) (hdis v (by simp))]
    rw [ih (done ++ [(v, infoF v)]) ?_ (List.Nodup.of_cons hnd)]
    · simp
    · intro w hw
      have h1 : w ∉ done.map Prod.fst := hdis w (List.mem_cons_of_mem v hw)
      have h2 : w ≠ v := by
        rintro rfl
        exact (List.nodup_cons.mp hnd).1 hw
      simp [h1, h2]

/-- Lookup into the association list built from a list of keys succeeds
exactly on those keys. -/
theorem lookup_map_pairs (infoF : String → VideoInfo) :
    ∀ (ids : List String) (v : String),
      (List.lookup v (ids.map (fun w => (w, infoF w)))).isSome ↔ v ∈ ids := by
  intro ids v
  induction ids with
  | nil => simp [List.lookup]
  | cons w ws ih =>
    by_cases h : v = w
    · subst h
      simp [List.lookup]
    · have hbeq : (v == w) = false := by simp [h]
      simp only [List.map_cons, List.lookup, hbeq, ih, List.mem_cons]
      exact ⟨fun hm => Or.inr hm, fun hm => hm.elim (fun hvw => absurd hvw h) id⟩

/-- Processing a prefix of video ids whose detail fetches all succeed stores
their records in order and moves on. -/
theorem importLoop_good (net : Net) (g : YoutubeInfoImporter) (cid : String)
    (infoF : String → VideoInfo) :
    ∀ (good tail : List String) (D : List (String × ChannelEntry))
      (e : ChannelEntry) (st : YoutubeInfoImporter) (urls : List String),
      (∀ v ∈ good, (get_video_info net g v 100).1 = .ok (infoF v)) →
      st.videos_dict = dictSet D cid e →
      importLoop net g cid (good ++ tail) st urls =
        importLoop net g cid tail
          ⟨st.api_key, dictSet D cid
            ⟨e.channel_title, good.foldl (fun d v => dictSet d v (infoF v)) e.videos⟩⟩
          (urls ++ good.map (fun v => youtube_video_details_api_url g ++ "id=" ++ v)) := by
  intro good
  induction good with
  | nil =>
    intro tail D e st urls _ hst
    simp [← hst]
  | cons v vs ih =>
    intro tail D e st urls h hst
    have hv1 := h v (List.mem_cons_self v vs)
    have hv2 := get_video_info_trace net g v 100
    have hgv : get_video_info net g v 100 =
        (.ok (infoF v), [youtube_video_details_api_url g ++ "id=" ++ v]) := by
      rcases hx : get_video_info net g v 100 with ⟨a, b⟩
      rw [hx] at hv1 hv2
      simp only at hv1 hv2
      rw [hv1, hv2]
    simp only [List.cons_append, importLoop, hgv, hst, setVideo_dictSet, List.append_eq]
    rw [ih tail D ⟨e.channel_title, dictSet e.videos v (infoF v)⟩
      ⟨st.api_key, dictSet D cid ⟨e.channel_title, dictSet e.videos v (infoF v)⟩⟩
      (urls ++ [youtube_video_details_api_url g ++ "id=" ++ v])
      (fun w hw => h w (List.mem_cons_of_mem v hw)) rfl]
    simp [List.foldl_cons]

/-- Unfolding `import_videos_from_channel` when the channel id is supplied
and the listing succeeds. -/
theorem import_unfold (net : Net) (g self : YoutubeInfoImporter) (name cid : String)
    (pa : Option String) (fuel : Nat) (ids lurls : List String)
    (hcid : cid.isEmpty = false)
    (hlist : get_channel_videos_ids net g cid pa fuel = some (.ok ids, lurls)) :
    import_videos_from_channel net (some g) self name (some cid) pa fuel =
      some (importLoop net g cid ids
        { self with videos_dict := dictSet self.videos_dict cid ⟨name, []⟩ } lurls) := by
  simp [import_videos_from_channel, hcid, hlist]

/-- Every URL the search-URL builder emits extends the importer's own search
endpoint (and hence embeds its credential). -/
theorem searchUrl_ok_shape (yt : YoutubeInfoImporter) (cid : String)
    (tok pa : Option String) (u : String)
    (h : searchUrl yt cid tok pa = .ok u) :
    ∃ t, u = youtube_search_api_url yt ++ t := by
  simp only [searchUrl] at h
  split at h
  · -- published_after = none
    rcases tok with _ | t
    · exact ⟨_, by simpa [String.append_assoc] using (Except.ok.inj h).symm⟩
    · simp only at h
      by_cases ht : t.isEmpty
      · rw [if_pos ht] at h
        exact ⟨_, by simpa [String.append_assoc] using (Except.ok.inj h).symm⟩
      · rw [if_neg ht] at h
        exact ⟨_, by simpa [String.append_assoc] using (Except.ok.inj h).symm⟩
  · -- published_after = some pa2
    split at h
    · cases h
    · rcases tok with _ | t
      · exact ⟨_, by simpa [String.append_assoc] using (Except.ok.inj h).symm⟩
      · simp only at h
        by_cases ht : t.isEmpty
        · rw [if_pos ht] at h
          exact ⟨_, by simpa [String.append_assoc] using (Except.ok.inj h).symm⟩
        · rw [if_neg ht] at h
          exact ⟨_, by simpa [String.append_assoc] using (Except.ok.inj h).symm⟩

/-- Every URL in the pagination loop's trace that was not there at entry is
an extension of the importer's search endpoint. -/
theorem videosLoop_urls_shape (net : Net) (yt : YoutubeInfoImporter) (cid : String)
    (pa : Option String) :
    ∀ (fuel n : Nat) (tok : Option String) (acc urls : List String)
      (res : Except PyError (List String)) (urls2 : List String),
      videosLoop net yt cid pa fuel n tok acc urls = some (res, urls2) →
      (∀ u ∈ urls, ∃ t, u = youtube_search_api_url yt ++ t) →
      ∀ u ∈ urls2, ∃ t, u = youtube_search_api_url yt ++ t := by
  intro fuel
  induction fuel with
  | zero =>
    intro n tok acc urls res urls2 h
    simp [videosLoop] at h
  | succ fuel ih =>
    intro n tok acc urls res urls2 h hurls
    simp only [videosLoop] at h
    split at h
    · simp only [Option.some.injEq, Prod.mk.injEq] at h
      rw [← h.2]
      exact hurls
    · rename_i url hurl
      have hnew : ∀ u ∈ urls ++ [url], ∃ t, u = youtube_search_api_url yt ++ t := by
        intro u hu
        rcases List.mem_append.mp hu with hmem | hmem
        · exact hurls u hmem
        · rw [List.mem_singleton.mp hmem]
          exact searchUrl_ok_shape yt cid tok pa url hurl
      split at h
      · simp only [Option.some.injEq, Prod.mk.injEq] at h
        rw [← h.2]
        exact hnew
      · split at h
        · simp only [Option.some.injEq, Prod.mk.injEq] at h
          rw [← h.2]
          exact hnew
        · exact ih _ _ _ _ _ _ h hnew

/-- The video-import loop keeps the calling instance's catalog in the shape
"`D` with one entry updated at `cid`", and only ever issues requests against
the details endpoint of the importer `g` it was given. -/
theorem importLoop_shape (net : Net) (g : YoutubeInfoImporter) (cid : String) :
    ∀ (vs : List String) (st : YoutubeInfoImporter) (urls : List String)
      (D : List (String × ChannelEntry)) (e : ChannelEntry),
      st.videos_dict = dictSet D cid e →
      (∃ e2, (importLoop net g cid vs st urls).1.videos_dict = dictSet D cid e2) ∧
      (∀ u ∈ (importLoop net g cid vs st urls).2.2,
        u ∈ urls ∨ ∃ t, u = youtube_video_details_api_url g ++ t) := by
  intro vs
  induction vs with
  | nil =>
    intro st urls D e hst
    exact ⟨⟨e, hst⟩, fun u hu => Or.inl hu⟩
  | cons v vs ih =>
    intro st urls D e hst
    have htr := get_video_info_trace net g v 100
    rcases hx : get_video_info net g v 100 with ⟨a, b⟩
    rw [hx] at htr
    simp only at htr
    subst htr
    rcases a with ea | info
    · simp only [importLoop, hx]
      refine ⟨⟨e, hst⟩, ?_⟩
      intro u hu
      rcases List.mem_append.mp hu with hmem | hmem
      · exact Or.inl hmem
      · rw [List.mem_singleton.mp hmem]
        exact Or.inr ⟨"id=" ++ v, by simp [String.append_assoc]⟩
    · simp only [importLoop, hx, hst, setVideo_dictSet]
      have hrec := ih ⟨st.api_key, dictSet D cid ⟨e.channel_title, dictSet e.videos v info⟩⟩
        (urls ++ [youtube_video_details_api_url g ++ "id=" ++ v]) D
        ⟨e.channel_title, dictSet e.videos v info⟩ rfl
      refine ⟨hrec.1, ?_⟩
      intro u hu
      rcases hrec.2 u hu with hmem | hmem
      · rcases List.mem_append.mp hmem with hmem2 | hmem2
        · exact Or.inl hmem2
        · rw [List.mem_singleton.mp hmem2]
          exact Or.inr ⟨"id=" ++ v, by simp [String.append_assoc]⟩
      · exact Or.inr hmem

/-- C7: `get_video_info` fails with the video `NotFoundError` whenever the
decoded response carries an empty items list; and inside
`import_videos_from_channel` the first failing detail fetch aborts the whole
call with that error, performing no further requests and leaving the
channel's catalog entry populated with exactly the records stored before the
failure. -/
theorem get_video_info_notfound_and_import_abort
    (net : Net) (g self : YoutubeInfoImporter) (name cid : String) (pa : Option String)
    (fuel : Nat) (good : List String) (bad : String) (rest lurls : List String)
    (infoF : String → VideoInfo) (ebad : PyError) (bus : List String)
    (hcid : cid.isEmpty = false)
    (hlist : get_channel_videos_ids net g cid pa fuel =
      some (.ok (good ++ bad :: rest), lurls))
    (hnodup : good.Nodup)
    (hok : ∀ v ∈ good, (get_video_info net g v 100).1 = .ok (infoF v))
    (hbad : get_video_info net g bad 100 = (.error ebad, bus)) :
    (∀ (net2 : Net) (yt2 : YoutubeInfoImporter) (vid : String) (limit : Nat)
       (r : VideoListResponse),
       send_request (net2.videos (youtube_video_details_api_url yt2 ++ "id=" ++ vid)) =
         .ok r →
       r.items = [] →
       get_video_info net2 yt2 vid limit =
         (.error (NotFoundVideoError vid),
          [youtube_video_details_api_url yt2 ++ "id=" ++ vid])) ∧
    import_videos_from_channel net (some g) self name (some cid) pa fuel =
      some (⟨self.api_key, dictSet self.videos_dict cid
              ⟨name, good.map (fun v => (v, infoF v))⟩⟩,
            .error ebad,
            lurls ++ good.map (fun v => youtube_video_details_api_url g ++ "id=" ++ v)
              ++ bus) := by
  constructor
  · intro net2 yt2 vid limit r hr hri
    simp [get_video_info, hr, hri]
  · rw [import_unfold net g self name cid pa fuel _ lurls hcid hlist]
    rw [importLoop_good net g cid infoF good (bad :: rest) self.videos_dict
      ⟨name, []⟩ _ lurls hok rfl]
    simp only [importLoop, hbad]
    rw [foldl_dictSet_map infoF good [] (by simp) hnodup]
    simp [List.append_assoc]

/-- Witness for C7: listing `["a", "b"]` where the fetch for `"b"` returns
empty items: the import aborts with `"b"`'s `NotFoundError`, the entry keeps
exactly `"a"`'s record, and no request beyond `"b"`'s is issued. -/
theorem get_video_info_notfound_and_import_abort_witness :
    import_videos_from_channel netC7w (some gYt) selfYt "N" (some "ch") none 1 =
      some (⟨selfYt.api_key, dictSet selfYt.videos_dict "ch"
              ⟨"N", [("a", infoOfId "a")]⟩⟩,
            .error (NotFoundVideoError "b"),
            [searchBase gYt "ch", youtube_video_details_api_url gYt ++ "id=" ++ "a",
             youtube_video_details_api_url gYt ++ "id=" ++ "b"]) := by
  have h := get_video_info_notfound_and_import_abort netC7w gYt selfYt "N" "ch" none 1
    ["a"] "b" [] [searchBase gYt "ch"] infoOfId (NotFoundVideoError "b")
    [youtube_video_details_api_url gYt ++ "id=" ++ "b"] rfl rfl (by decide)
    (by intro v hv; simp at hv; subst hv; rfl) rfl
  exact h.2

/-- C9: a completed (successful) `import_videos_from_channel` stores, for the
affected channel, exactly one record per identifier returned by the listing
call of that same import — keyed by those identifiers, in particular two
records keyed `"a"` and `"b"` for a listing `["a", "b"]` — and nothing else. -/
theorem import_videos_complete_catalog
    (net : Net) (g self : YoutubeInfoImporter) (name cid : String) (pa : Option String)
    (fuel : Nat) (ids lurls : List String) (infoF : String → VideoInfo)
    (hcid : cid.isEmpty = false)
    (hlist : get_channel_videos_ids net g cid pa fuel = some (.ok ids, lurls))
    (hnodup : ids.Nodup)
    (hok : ∀ v ∈ ids, (get_video_info net g v 100).1 = .ok (infoF v)) :
    import_videos_from_channel net (some g) self name (some cid) pa fuel =
      some (⟨self.api_key, dictSet self.videos_dict cid
              ⟨name, ids.map (fun v => (v, infoF v))⟩⟩,
            .ok (),
            lurls ++ ids.map (fun v => youtube_video_details_api_url g ++ "id=" ++ v)) ∧
    (∀ v : String,
      (List.lookup v (ids.map (fun w => (w, infoF w)))).isSome ↔ v ∈ ids) := by
  refine ⟨?_, fun v => lookup_map_pairs infoF ids v⟩
  rw [import_unfold net g self name cid pa fuel ids lurls hcid hlist]
  have h := importLoop_good net g cid infoF ids [] self.videos_dict ⟨name, []⟩
    ⟨self.api_key, dictSet self.videos_dict cid ⟨name, []⟩⟩ lurls hok rfl
  rw [List.append_nil] at h
  rw [h]
  simp only [importLoop]
  rw [foldl_dictSet_map infoF ids [] (by simp) hnodup]
  simp

/-- Witness for C9: listing `["a", "b"]`, both fetches succeed. -/
theorem import_videos_complete_catalog_witness :
    import_videos_from_channel netC9w (some gYt) selfYt "N" (some "ch") none 1 =
      some (⟨selfYt.api_key, dictSet selfYt.videos_dict "ch"
              ⟨"N", [("a", infoOfId "a"), ("b", infoOfId "b")]⟩⟩,
            .ok (),
            [searchBase gYt "ch", youtube_video_details_api_url gYt ++ "id=" ++ "a",
             youtube_video_details_api_url gYt ++ "id=" ++ "b"]) ∧
    ((List.lookup "a" (["a", "b"].map (fun w => (w, infoOfId w)))).isSome ↔
      "a" ∈ ["a", "b"]) := by
  have h := import_videos_complete_catalog netC9w gYt selfYt "N" "ch" none 1
    ["a", "b"] [searchBase gYt "ch"] infoOfId rfl rfl (by decide)
    (by intro v hv; simp at hv; rcases hv with rfl | rfl <;> rfl)
  exact ⟨h.1, h.2 "a"⟩

/-- C10: `import_videos_from_channel` performs its lookups on the
module-level global `yt`, not on `self`.  With no global defined the call
fails with a `NameError` for `yt` (after creating the empty catalog entry
when a channel id was supplied, before any mutation when the id must be
resolved); channel-name resolution goes through the global instance; and
with a global `g`, every issued request URL extends one of `g`'s endpoints
(hence carries `g`'s credential) while the results land in the calling
instance's own `videos_dict`. -/
theorem import_videos_uses_global_yt :
    (∀ (net : Net) (self : YoutubeInfoImporter) (name cid : String)
       (pa : Option String) (fuel : Nat), cid.isEmpty = false →
       import_videos_from_channel net none self name (some cid) pa fuel =
         some (⟨self.api_key, dictSet self.videos_dict cid ⟨name, []⟩⟩,
               .error (.nameError "yt"), [])) ∧
    (∀ (net : Net) (self : YoutubeInfoImporter) (name : String)
       (pa : Option String) (fuel : Nat),
       import_videos_from_channel net none self name none pa fuel =
         some (self, .error (.nameError "yt"), [])) ∧
    (∀ (net : Net) (g self : YoutubeInfoImporter) (name : String)
       (pa : Option String) (fuel : Nat) (e : PyError) (curls : List String),
       get_channel_id net g name = (.error e, curls) →
       import_videos_from_channel net (some g) self name none pa fuel =
         some (self, .error e, curls)) ∧
    (∀ (net : Net) (g self : YoutubeInfoImporter) (name cid : String)
       (pa : Option String) (fuel : Nat) (st : YoutubeInfoImporter)
       (res : Except PyError Unit) (urls : List String), cid.isEmpty = false →
       import_videos_from_channel net (some g) self name (some cid) pa fuel =
         some (st, res, urls) →
       (∀ u ∈ urls, (∃ t, u = youtube_search_api_url g ++ t) ∨
         (∃ t, u = youtube_video_details_api_url g ++ t)) ∧
       (∃ e2, st.videos_dict = dictSet self.videos_dict cid e2)) := by
  refine ⟨?_, ?_, ?_, ?_⟩
  · intro net self name cid pa fuel hcid
    simp [import_videos_from_channel, hcid]
  · intro net self name pa fuel
    simp [import_videos_from_channel]
  · intro net g self name pa fuel e curls hres
    simp [import_videos_from_channel, hres]
  · intro net g self name cid pa fuel st res urls hcid hrun
    simp only [import_videos_from_channel, hcid, Bool.false_eq_true, if_false] at hrun
    rcases hls : get_channel_videos_ids net g cid pa fuel with _ | ⟨lres, lurls⟩
    · rw [hls] at hrun
      cases hrun
    · rw [hls] at hrun
      have hlurls : ∀ u ∈ lurls, ∃ t, u = youtube_search_api_url g ++ t := by
        intro u hu
        exact videosLoop_urls_shape net g cid pa fuel 0 none [] [] lres lurls hls
          (by simp) u hu
      rcases lres with le | ids
      · simp only [Option.some.injEq, Prod.mk.injEq] at hrun
        obtain ⟨hst, _, hurls⟩ := hrun
        refine ⟨?_, ?_⟩
        · intro u hu
          rw [← hurls] at hu
          exact Or.inl (hlurls u hu)
        · exact ⟨⟨name, []⟩, by rw [← hst]⟩
      · simp only [Option.some.injEq] at hrun
        have hshape := importLoop_shape net g cid ids
          ⟨self.api_key, dictSet self.videos_dict cid ⟨name, []⟩⟩ lurls
          self.videos_dict ⟨name, []⟩ rfl
        rw [hrun] at hshape
        refine ⟨?_, hshape.1⟩
        intro u hu
        rcases hshape.2 u hu with hmem | hmem
        · exact Or.inl (hlurls u hmem)
        · exact Or.inr hmem

/-- Witness for C10: with the module-level `yt` undefined, the call on a
fully-configured instance still fails with `NameError` after creating the
empty entry. -/
theorem import_videos_uses_global_yt_witness :
    import_videos_from_channel trivNet none selfYt "n" (some "c") none 3 =
      some (⟨selfYt.api_key, dictSet selfYt.videos_dict "c" ⟨"n", []⟩⟩,
            .error (.nameError "yt"), []) :=
  import_videos_uses_global_yt.1 trivNet selfYt "n" "c" none 3 rfl
